import Mathlib

/-!
Verification of the truthbomb-data wealth pipelines.

Shallow embedding of the three scripts:
* `src/014_us_wealth_inequality.py` — census loader, cleaning, quarterly
  averaging, pivot, merge, per-household derivation, rounding, validator;
* `src/data_validation/014_dv.py` — the near-identical copy (rounds to one
  decimal place instead of two, repeats the merge statement);
* `src/015_wealth_collapse.py` — the 1990→2023 percent-change calculator.

Numeric values are modelled by `ℚ`; the one place where IEEE non-finite
results matter (division by a zero 1990 baseline in the percent-change
stage) uses an explicit `FloatVal` type with infinities and NaN.
Python string primitives (`str.strip`, `str.lower`, `int(...)`,
`str.replace(',', '')`, slicing `[:4]`) are embedded as character-list
functions so that everything evaluates inside the kernel.
`pd.read_csv` with a skip offset at or past the end of the file raises
`pandas.errors.EmptyDataError`, which the header-probing loader does not
catch; `LoadResult` keeps that outcome distinct from the loader's own
missing-header `ValueError`.
-/

namespace TB

/-! ### String primitives (Python `str.strip`, `str.lower`, `int`, `[:4]`) -/

/-- Python whitespace characters relevant to `str.strip()`. -/
def isSpaceChar (c : Char) : Bool :=
  c == ' ' || c == '\t' || c == '\n' || c == '\r'

/-- ASCII lowercasing of a single character, as `str.lower()` does on the
ASCII column names appearing in this repository. -/
def lowerChar (c : Char) : Char :=
  if 'A' ≤ c ∧ c ≤ 'Z' then Char.ofNat (c.toNat + 32) else c

/-- `str.strip()`: drop leading and trailing whitespace. -/
def trimChars (l : List Char) : List Char :=
  ((l.dropWhile isSpaceChar).reverse.dropWhile isSpaceChar).reverse

/-- Column-name normalization `c.strip().lower()` from the loader and the
cleaning step of both 014 scripts. -/
def normName (s : String) : String :=
  String.mk ((trimChars s.data).map lowerChar)

/-- Value of a decimal digit character, if it is one. -/
def digitVal (c : Char) : Option ℕ :=
  if '0' ≤ c ∧ c ≤ '9' then some (c.toNat - 48) else none

/-- Parse an unsigned decimal digit string; `none` on empty input or any
non-digit character (Python `int(...)` raising `ValueError`). -/
def digitsToNat (l : List Char) : Option ℕ :=
  l.foldl (fun acc c => match acc, digitVal c with
    | some n, some d => some (n * 10 + d)
    | _, _ => none) (if l.isEmpty then none else some 0)

/-- Python `int(s)` on an optionally sign-prefixed decimal string. -/
def parseInt (s : String) : Option ℤ :=
  match s.data with
  | '-' :: rest => (digitsToNat rest).map (fun n => -(n : ℤ))
  | l => (digitsToNat l).map (fun n => (n : ℤ))

/-- `s.str.replace(',', '')`: delete every comma. -/
def stripCommas (s : String) : String :=
  String.mk (s.data.filter (fun c => c != ','))

/-- Python slicing `s[:4]`. -/
def take4 (s : String) : String := String.mk (s.data.take 4)

/-! ### CSV loader (`load_census_csv`, identical text in both 014 files)

A CSV source is modelled as the list of its lines, each already split into
cells; `pd.read_csv(path, skiprows=k)` treats line `k` as the header and
the remaining lines as data rows. -/

/-- A parsed delimited table: header (column names) plus data rows. -/
structure CsvDF where
  cols : List String
  rows : List (List String)
deriving Repr, DecidableEq

/-- `pd.read_csv(path, skiprows=skip)` on a file given as split lines. -/
def readCsvSkip (lines : List (List String)) (skip : ℕ) : CsvDF :=
  { cols := (lines.drop skip).headD [], rows := (lines.drop skip).tail }

/-- Normalize every column name (`c.strip().lower()`). -/
def normalizeCols (cols : List String) : List String := cols.map normName

/-- `pd.read_csv(path, skiprows=skip)` raises
`pandas.errors.EmptyDataError` when no lines remain after skipping;
`none` models that exception, which `load_census_csv` does not catch. -/
def readCsv (lines : List (List String)) (skip : ℕ) : Option CsvDF :=
  if (lines.drop skip).isEmpty then none else some (readCsvSkip lines skip)

/-- The loop guard of `load_census_csv` on a parsed table: after
normalizing the candidate header, both required columns are present. -/
def dfHeaderOk (df : CsvDF) : Bool :=
  (normalizeCols df.cols).contains "us_total_households" &&
    (normalizeCols df.cols).contains "year"

/-- `df.columns = cols`: normalized column names assigned back, data rows
untouched. -/
def normAssign (df : CsvDF) : CsvDF :=
  { cols := normalizeCols df.cols, rows := df.rows }

/-- The loop guard at a given skip offset. -/
def headerFound (lines : List (List String)) (skip : ℕ) : Bool :=
  dfHeaderOk (readCsvSkip lines skip)

/-- The table returned on success at a given skip offset. -/
def normDF (lines : List (List String)) (skip : ℕ) : CsvDF :=
  normAssign (readCsvSkip lines skip)

/-- How one run of `load_census_csv` can end: a successful parse, an
uncaught `EmptyDataError` from a read past the end of the file, or the
loop's own missing-header `ValueError` after the lookahead is exhausted;
each constructor records how many `pd.read_csv` attempts were made, the
raising read included. -/
inductive LoadResult where
  | table (attempts : ℕ) (df : CsvDF)
  | emptyDataError (attempts : ℕ)
  | missingHeaderError (attempts : ℕ)
deriving Repr, DecidableEq

/-- The `for skip in range(lookahead)` loop of `load_census_csv`, started
at offset `skip` with `fuel` iterations left: read (which may raise
`EmptyDataError`), normalize and test the header, return or continue;
exhausting the loop raises the descriptive `ValueError`. -/
def load_census_aux (lines : List (List String)) : ℕ → ℕ → LoadResult
  | _, 0 => .missingHeaderError 0
  | skip, fuel + 1 =>
    match readCsv lines skip with
    | none => .emptyDataError 1
    | some df =>
      if dfHeaderOk df then .table 1 (normAssign df)
      else
        match load_census_aux lines (skip + 1) fuel with
        | .table n df1 => .table (n + 1) df1
        | .emptyDataError n => .emptyDataError (n + 1)
        | .missingHeaderError n => .missingHeaderError (n + 1)

/-- `load_census_csv(path, lookahead)`: probe skip offsets `0, 1, …,
lookahead − 1` in order; the default lookahead in the scripts is 15. -/
def load_census_csv (lines : List (List String)) (lookahead : ℕ) : LoadResult :=
  load_census_aux lines 0 lookahead

/-- A synthetic census source: two preamble lines, the real header (with
stray spacing and capitalization) at offset 2, then one data row. -/
def censusLines0 : List (List String) :=
  [["US Census Bureau"], ["households table", "units: thousands"],
   [" Year ", " US_Total_Households "], ["1990", "128,451"]]

/-- A source in which no offset ever exposes the two required columns —
and which, with only 3 lines, is shorter than the default lookahead. -/
def censusLinesBad : List (List String) :=
  [["US Census Bureau"], ["year", "households"], ["1990", "128,451"]]

/-- A 15-line source in which no offset exposes the required columns:
long enough that every offset below the default lookahead is actually
read. -/
def censusLinesNoHeader : List (List String) :=
  List.replicate 15 ["not", "a", "header"]

/-! ### Census cleaning (lines 23–25 of `014_us_wealth_inequality.py`) -/

/-- A cleaned census record: integer year, household count already scaled
from thousands to absolute units. -/
structure CensusRow where
  year : ℤ
  us_total_households : ℤ
deriving Repr, DecidableEq

/-- Extract the cell of column `c` from a data row, pairing positionally
with the header. -/
def getField (cols : List String) (row : List String) (c : String) : Option String :=
  ((cols.zip row).find? (fun p => p.1 == c)).map (fun p => p.2)

/-- The household-count cleaning expression
`x.str.replace(',', '').astype(int) * 1000` applied to one field value. -/
def clean_household_field (s : String) : Option ℤ :=
  (parseInt (stripCommas s)).map (fun n => n * 1000)

/-- Clean one census data row: `year.astype(int)` and the household-count
conversion; `none` models the fatal coercion error. -/
def cleanCensusRow (cols : List String) (row : List String) : Option CensusRow :=
  match getField cols row "year", getField cols row "us_total_households" with
  | some ys, some hs =>
    match parseInt ys, clean_household_field hs with
    | some y, some hh => some { year := y, us_total_households := hh }
    | _, _ => none
  | _, _ => none

/-- Clean every census row; any failure is fatal for the whole run. -/
def cleanCensus (cols : List String) : List (List String) → Option (List CensusRow)
  | [] => some []
  | row :: rows =>
    match cleanCensusRow cols row, cleanCensus cols rows with
    | some r, some rs => some (r :: rs)
    | _, _ => none

/-! ### Quarterly asset records and annual averages (lines 27–33) -/

/-- One row of `014_federal_reserve_data.csv`: a quarterly date string
(`"YYYY:Qn"`), a tier label, and an asset value in trillions. -/
structure FedRecord where
  date : String
  category : String
  assets : ℚ
deriving Repr, DecidableEq

/-- An asset record after the year derivation
`fed_reserve_data['date'].str[:4].astype(int)`. -/
structure FedRow where
  year : ℤ
  category : String
  assets : ℚ
deriving Repr, DecidableEq

/-- Derive the integer year from the leading four characters of the date
string; `none` models the fatal `astype(int)` failure. -/
def parseFedRecord (r : FedRecord) : Option FedRow :=
  (parseInt (take4 r.date)).map
    (fun y => { year := y, category := r.category, assets := r.assets })

/-- Column-wise year derivation over the whole table. -/
def parseFed : List FedRecord → Option (List FedRow)
  | [] => some []
  | r :: rs =>
    match parseFedRecord r, parseFed rs with
    | some pr, some prs => some (pr :: prs)
    | _, _ => none

/-- The year filter `(year >= 1990) & (year <= 2023)`. -/
def inRange (y : ℤ) : Bool := decide (1990 ≤ y) && decide (y ≤ 2023)

/-- `fed_reserve_data[(year >= 1990) & (year <= 2023)]`. -/
def filterYears (rs : List FedRow) : List FedRow := rs.filter (fun r => inRange r.year)

/-- `fed_reserve_data['assets'] *= 1_000_000` (trillions to millions). -/
def scaleAssets (rs : List FedRow) : List FedRow :=
  rs.map (fun r => { r with assets := r.assets * 1000000 })

/-- The asset values of the `(year, category)` group. -/
def cellValues (rs : List FedRow) (y : ℤ) (c : String) : List ℚ :=
  (rs.filter (fun r => r.year == y && r.category == c)).map (fun r => r.assets)

/-- `mean()` of a group: absent groups produce no cell. -/
def meanList (vs : List ℚ) : Option ℚ :=
  if vs.isEmpty then none else some (vs.sum / (vs.length : ℚ))

/-- The `(y, c)` cell of `annual_avg` (and, after pivoting, of
`annual_wealth_data`): mean over the filtered, scaled quarter rows. -/
def annualCell (rs : List FedRow) (y : ℤ) (c : String) : Option ℚ :=
  meanList (cellValues (scaleAssets (filterYears rs)) y c)

/-- Quarterly source rows for the C4 witness: two in-range quarters for
`TopPt1` in 1990 and one out-of-range 1989 quarter. -/
def fedRecords0 : List FedRecord :=
  [{ date := "1990:Q1", category := "TopPt1", assets := 2 },
   { date := "1990:Q2", category := "TopPt1", assets := 4 },
   { date := "1989:Q4", category := "TopPt1", assets := 8 }]

/-- The same rows after year derivation. -/
def fedRows0 : List FedRow :=
  [{ year := 1990, category := "TopPt1", assets := 2 },
   { year := 1990, category := "TopPt1", assets := 4 },
   { year := 1989, category := "TopPt1", assets := 8 }]

/-! ### Merge and per-household derivation (lines 44–53) -/

/-- The merged table row for one year.  Pivot cells and the joined
household count are optional: a missing `(year, tier)` group or a year
absent from the census table yields `NaN`, modelled as `none`. -/
structure MergedRow where
  year : ℤ
  top_pt1_assets : Option ℚ
  remaining_top_1_assets : Option ℚ
  next9_assets : Option ℚ
  next40_assets : Option ℚ
  bottom50_assets : Option ℚ
  us_total_households : Option ℤ
  top_pt1_per_household : Option ℚ
  remaining_top_1_per_household : Option ℚ
  next9_per_household : Option ℚ
  next40_per_household : Option ℚ
  bottom50_per_household : Option ℚ
deriving Repr, DecidableEq

/-- The left join `pd.merge(..., on='year', how='left')`: the household
count of the first census row for a year, if any. -/
def lookupCensus (census : List CensusRow) (y : ℤ) : Option ℤ :=
  (census.find? (fun cr => cr.year == y)).map (fun cr => cr.us_total_households)

/-- One per-household derivation
`tier_assets / (us_total_households * share)`; `NaN` (here `none`)
propagates from either operand. -/
def perHH (assets : Option ℚ) (hh : Option ℤ) (share : ℚ) : Option ℚ :=
  match assets, hh with
  | some a, some h => some (a / ((h : ℚ) * share))
  | _, _ => none

/-- One row of `merged_data` after the five per-household assignments
(lines 44–53 of the production script), before rounding. -/
def mkMergedRow (rs : List FedRow) (census : List CensusRow) (y : ℤ) : MergedRow :=
  let t1 := annualCell rs y "TopPt1"
  let r1 := annualCell rs y "RemainingTop1"
  let n9 := annualCell rs y "Next9"
  let n40 := annualCell rs y "Next40"
  let b50 := annualCell rs y "Bottom50"
  let hh := lookupCensus census y
  { year := y
    top_pt1_assets := t1
    remaining_top_1_assets := r1
    next9_assets := n9
    next40_assets := n40
    bottom50_assets := b50
    us_total_households := hh
    top_pt1_per_household := perHH t1 hh 0.001
    remaining_top_1_per_household := perHH r1 hh 0.009
    next9_per_household := perHH n9 hh 0.09
    next40_per_household := perHH n40 hh 0.40
    bottom50_per_household := perHH b50 hh 0.50 }

/-- Census side of the C1 witness: 130,000,000 households in year 2000. -/
def censusRowsW : List CensusRow := [{ year := 2000, us_total_households := 130000000 }]

/-- Asset side of the C1 witness: a single `Next9` quarter of 0.1 trillion,
i.e. an annual cell of 100,000 (millions). -/
def fedRowsW : List FedRow := [{ year := 2000, category := "Next9", assets := 1/10 }]

/-! ### Rounding (lines 55–57; `.round(2)` in the production script,
`.round(1)` in the data-validation copy) -/

/-- `Series.round(d)` on one value: round to `d` decimal places. -/
def roundDp (d : ℕ) (x : ℚ) : ℚ := ((round (x * 10 ^ d) : ℤ) : ℚ) / 10 ^ d

/-- Rounding lifted over a possibly-missing cell (`NaN` stays `NaN`). -/
def roundOpt (d : ℕ) (x : Option ℚ) : Option ℚ := x.map (roundDp d)

/-- `merged_data[columns_to_round].round(d)`: every column except `year`
and `us_total_households` is rounded. -/
def roundMergedRow (d : ℕ) (r : MergedRow) : MergedRow :=
  { r with
    top_pt1_assets := roundOpt d r.top_pt1_assets
    remaining_top_1_assets := roundOpt d r.remaining_top_1_assets
    next9_assets := roundOpt d r.next9_assets
    next40_assets := roundOpt d r.next40_assets
    bottom50_assets := roundOpt d r.bottom50_assets
    top_pt1_per_household := roundOpt d r.top_pt1_per_household
    remaining_top_1_per_household := roundOpt d r.remaining_top_1_per_household
    next9_per_household := roundOpt d r.next9_per_household
    next40_per_household := roundOpt d r.next40_per_household
    bottom50_per_household := roundOpt d r.bottom50_per_household }

/-! ### Dataset validator (lines 56–68 / 104–116 of the copy) -/

/-- A generic final table as the validator sees it: a list of column
names and rows of named, possibly-missing numeric cells. -/
structure VTable where
  cols : List String
  rows : List (List (String × Option ℚ))
deriving Repr, DecidableEq

/-- The value of column `c` in a row (missing entry counts as null). -/
def cellVal (row : List (String × Option ℚ)) (c : String) : Option ℚ :=
  match row.find? (fun p => p.1 == c) with
  | some p => p.2
  | none => none

/-- The `expected_columns` list of `validate_dataset`. -/
def expected_columns : List String :=
  ["year", "top_pt1_per_household", "remaining_top_1_per_household",
   "next9_per_household", "next40_per_household", "bottom50_per_household"]

/-- `df[col].notnull().all()` fails: some row has a null in column `c`. -/
def colHasNull (t : VTable) (c : String) : Bool :=
  t.rows.any (fun row => (cellVal row c).isNone)

/-- `(df[col] >= 0).all()` fails on a present value: some row has a
negative value in column `c`. -/
def colHasNeg (t : VTable) (c : String) : Bool :=
  t.rows.any (fun row => match cellVal row c with
    | some v => decide (v < 0)
    | none => false)

/-- The three assertion kinds of `validate_dataset`, each naming the
offending column. -/
inductive VerError where
  | missingColumn (c : String)
  | nullValues (c : String)
  | negativeValues (c : String)
deriving Repr, DecidableEq

/-- The loop body of `validate_dataset` for one expected column: the three
assertions in source order. -/
def checkColumn (t : VTable) (c : String) : Option VerError :=
  if t.cols.contains c = false then some (.missingColumn c)
  else if colHasNull t c then some (.nullValues c)
  else if colHasNeg t c then some (.negativeValues c)
  else none

/-- The `for col in expected_columns` loop: first assertion failure wins. -/
def validateAux (t : VTable) : List String → Option VerError
  | [] => none
  | c :: cs =>
    match checkColumn t c with
    | some e => some e
    | none => validateAux t cs

/-- `validate_dataset(df)`: `none` models the success print, `some e` the
fatal `AssertionError` with its message. -/
def validate_dataset (t : VTable) : Option VerError := validateAux t expected_columns

/-- The C6 counterexample table: all six expected columns present, the
five per-household columns fully populated and non-negative, but the
`year` column holds `−1` — the validator still fails, which the claim as
stated forbids. -/
def vtableYearNeg : VTable :=
  { cols := expected_columns
    rows := [[("year", some (-1)), ("top_pt1_per_household", some 1),
              ("remaining_top_1_per_household", some 1), ("next9_per_household", some 1),
              ("next40_per_household", some 1), ("bottom50_per_household", some 1)]] }

/-- The C10 witness table: conforming expected columns, but a negative
`us_total_households` and a null `top_pt1_assets` in retained non-expected
columns. -/
def vtableExtraBad : VTable :=
  { cols := expected_columns ++ ["us_total_households", "top_pt1_assets"]
    rows := [[("year", some 1990), ("top_pt1_per_household", some 1),
              ("remaining_top_1_per_household", some 1), ("next9_per_household", some 1),
              ("next40_per_household", some 1), ("bottom50_per_household", some 1),
              ("us_total_households", some (-5)), ("top_pt1_assets", none)]] }

/-! ### The two full copies of the first pipeline (C9) -/

/-- The sorted distinct years of the filtered asset table — the row index
produced by `groupby(['year', 'category'])` followed by
`pivot(index='year', ...)`. -/
def yearsList (rs : List FedRow) : List ℤ :=
  List.insertionSort (· ≤ ·) ((filterYears rs).map (fun r => r.year)).dedup

/-- The six retained columns of the saved artifact (`columns_out`). -/
structure OutRow where
  year : ℤ
  top_pt1_per_household : Option ℚ
  remaining_top_1_per_household : Option ℚ
  next9_per_household : Option ℚ
  next40_per_household : Option ℚ
  bottom50_per_household : Option ℚ
deriving Repr, DecidableEq

/-- `merged_data[columns_out]`: project the six output columns, in their
fixed order. -/
def projOut (r : MergedRow) : OutRow :=
  { year := r.year
    top_pt1_per_household := r.top_pt1_per_household
    remaining_top_1_per_household := r.remaining_top_1_per_household
    next9_per_household := r.next9_per_household
    next40_per_household := r.next40_per_household
    bottom50_per_household := r.bottom50_per_household }

/-- `014_us_wealth_inequality.py` up to (but not including) the rounding
step: load the census table (lookahead 15), re-normalize its column names,
clean it, derive years on the asset table, filter, scale, average, pivot
and merge; `none` models any fatal load or coercion error. -/
def buildMerged (censusLines : List (List String)) (fed : List FedRecord) :
    Option (List MergedRow) :=
  match load_census_csv censusLines 15 with
  | .table _ df =>
    match cleanCensus (normalizeCols df.cols) df.rows with
    | none => none
    | some census =>
      match parseFed fed with
      | none => none
      | some rows => some ((yearsList rows).map (mkMergedRow rows census))
  | _ => none

/-- The same stretch of `data_validation/014_dv.py`, which repeats the
`pd.merge` statement verbatim before computing the per-household columns
(the first merge result is immediately overwritten). -/
def buildMergedDV (censusLines : List (List String)) (fed : List FedRecord) :
    Option (List MergedRow) :=
  match load_census_csv censusLines 15 with
  | .table _ df =>
    match cleanCensus (normalizeCols df.cols) df.rows with
    | none => none
    | some census =>
      match parseFed fed with
      | none => none
      | some rows =>
        let _mergedFirst := (yearsList rows).map (mkMergedRow rows census)
        some ((yearsList rows).map (mkMergedRow rows census))
  | _ => none

/-- The production script's merged table: rounded to two decimal places. -/
def pipeline014 (censusLines : List (List String)) (fed : List FedRecord) :
    Option (List MergedRow) :=
  (buildMerged censusLines fed).map (List.map (roundMergedRow 2))

/-- The data-validation copy's merged table: rounded to one decimal place. -/
def pipelineDV (censusLines : List (List String)) (fed : List FedRecord) :
    Option (List MergedRow) :=
  (buildMergedDV censusLines fed).map (List.map (roundMergedRow 1))

/-- The CSV artifact saved by the production script. -/
def artifact014 (censusLines : List (List String)) (fed : List FedRecord) :
    Option (List OutRow) :=
  (pipeline014 censusLines fed).map (List.map projOut)

/-- The CSV artifact saved by the data-validation copy. -/
def artifactDV (censusLines : List (List String)) (fed : List FedRecord) :
    Option (List OutRow) :=
  (pipelineDV censusLines fed).map (List.map projOut)

/-! ### `015_wealth_collapse.py`: the percent-change calculator -/

/-- One row of the persisted `014_result_set.csv` as read back by 015:
year plus the five per-household figures. -/
structure PHRow where
  year : ℤ
  top_pt1_per_household : ℚ
  remaining_top_1_per_household : ℚ
  next9_per_household : ℚ
  next40_per_household : ℚ
  bottom50_per_household : ℚ
deriving Repr, DecidableEq

/-- A pandas float cell: finite, `±inf`, or `NaN`.  Division of a nonzero
number by zero yields an infinity and `0/0` yields `NaN`; no exception is
raised. -/
inductive FloatVal where
  | fin (q : ℚ)
  | posInf
  | negInf
  | nan
deriving Repr, DecidableEq

/-- One tier's cell of `((end_s - start_s) / start_s * 100).round(1)`,
with IEEE semantics for a zero denominator. -/
def pctCell (s e : ℚ) : FloatVal :=
  if s = 0 then
    if 0 < e - s then .posInf
    else if e - s < 0 then .negInf
    else .nan
  else .fin (roundDp 1 ((e - s) / s * 100))

/-- The tier keys of the percent-change table, in column order. -/
def tierColumns : List String :=
  ["top_pt1_per_household", "remaining_top_1_per_household", "next9_per_household",
   "next40_per_household", "bottom50_per_household"]

/-- The percent-change table: one `(tier, pct_change)` row per tier. -/
def pctTable (s e : PHRow) : List (String × FloatVal) :=
  [("top_pt1_per_household",
      pctCell s.top_pt1_per_household e.top_pt1_per_household),
   ("remaining_top_1_per_household",
      pctCell s.remaining_top_1_per_household e.remaining_top_1_per_household),
   ("next9_per_household", pctCell s.next9_per_household e.next9_per_household),
   ("next40_per_household", pctCell s.next40_per_household e.next40_per_household),
   ("bottom50_per_household", pctCell s.bottom50_per_household e.bottom50_per_household)]

/-- The whole calculator: `by_year.loc[1990]` and `by_year.loc[2023]`
(first row with that year; `none` models the fatal `KeyError`), then the
per-tier percent change. -/
def pct_change (rows : List PHRow) : Option (List (String × FloatVal)) :=
  match rows.find? (fun r => r.year == 1990), rows.find? (fun r => r.year == 2023) with
  | some s, some e => some (pctTable s e)
  | _, _ => none

/-- The 1990 artifact row of the C7 witness. -/
def phStart7 : PHRow :=
  { year := 1990, top_pt1_per_household := 50, remaining_top_1_per_household := 50,
    next9_per_household := 50, next40_per_household := 50, bottom50_per_household := 50 }

/-- The 2023 artifact row of the C7 witness. -/
def phEnd7 : PHRow :=
  { year := 2023, top_pt1_per_household := 200, remaining_top_1_per_household := 100,
    next9_per_household := 100, next40_per_household := 100, bottom50_per_household := 100 }

/-- The persisted artifact of the C7 witness. -/
def phRows7 : List PHRow := [phStart7, phEnd7]

/-- The 1990 artifact row of the C8 counterexample, with a zero
`top_pt1_per_household` baseline. -/
def phStart8 : PHRow :=
  { year := 1990, top_pt1_per_household := 0, remaining_top_1_per_household := 50,
    next9_per_household := 50, next40_per_household := 50, bottom50_per_household := 50 }

/-- The 2023 artifact row of the C8 counterexample. -/
def phEnd8 : PHRow :=
  { year := 2023, top_pt1_per_household := 200, remaining_top_1_per_household := 100,
    next9_per_household := 100, next40_per_household := 100, bottom50_per_household := 100 }

/-- The persisted artifact of the C8 counterexample. -/
def phRows8 : List PHRow := [phStart8, phEnd8]

theorem headerFound_length (lines : List (List String)) (s : ℕ)
    (h : headerFound lines s = true) : s < lines.length := by
  by_contra hle
  push_neg at hle
  have hdrop : lines.drop s = [] := List.drop_eq_nil_of_le hle
  simp [headerFound, dfHeaderOk, readCsvSkip, hdrop, normalizeCols] at h

theorem readCsv_of_lt (lines : List (List String)) (s : ℕ) (h : s < lines.length) :
    readCsv lines s = some (readCsvSkip lines s) := by
  have hcond : ¬((lines.drop s).isEmpty = true) := by
    simp only [List.isEmpty_eq_true, List.drop_eq_nil_iff, not_le]
    exact h
  unfold readCsv
  rw [if_neg hcond]

theorem readCsv_of_ge (lines : List (List String)) (s : ℕ) (h : lines.length ≤ s) :
    readCsv lines s = none := by
  have hcond : (lines.drop s).isEmpty = true := by
    simp only [List.isEmpty_eq_true, List.drop_eq_nil_iff]
    exact h
  unfold readCsv
  rw [if_pos hcond]

theorem load_census_aux_step (lines : List (List String)) (skip fuel : ℕ)
    (h : skip < lines.length) :
    load_census_aux lines skip (fuel + 1) =
      if headerFound lines skip then .table 1 (normDF lines skip)
      else
        match load_census_aux lines (skip + 1) fuel with
        | .table n df1 => .table (n + 1) df1
        | .emptyDataError n => .emptyDataError (n + 1)
        | .missingHeaderError n => .missingHeaderError (n + 1) := by
  simp only [load_census_aux, readCsv_of_lt lines skip h]
  rfl

theorem load_census_aux_eof (lines : List (List String)) (skip fuel : ℕ)
    (h : lines.length ≤ skip) :
    load_census_aux lines skip (fuel + 1) = .emptyDataError 1 := by
  simp only [load_census_aux, readCsv_of_ge lines skip h]

theorem load_census_aux_found (lines : List (List String)) :
    ∀ (k : ℕ) (fuel skip : ℕ), k < fuel →
      headerFound lines (skip + k) = true →
      (∀ j, j < k → headerFound lines (skip + j) = false) →
      load_census_aux lines skip fuel = .table (k + 1) (normDF lines (skip + k)) := by
  intro k
  induction k with
  | zero =>
    intro fuel skip hfuel hmatch _
    match fuel, hfuel with
    | fuel + 1, _ =>
      have hm : headerFound lines skip = true := by simpa using hmatch
      rw [load_census_aux_step lines skip fuel (headerFound_length lines skip hm),
        if_pos hm]
      simp
  | succ k ih =>
    intro fuel skip hfuel hmatch hpre
    match fuel, hfuel with
    | fuel + 1, hfuel =>
      have h0 : headerFound lines skip = false := by
        simpa using hpre 0 (Nat.succ_pos k)
      have hklen : skip + (k + 1) < lines.length :=
        headerFound_length lines (skip + (k + 1)) hmatch
      rw [load_census_aux_step lines skip fuel (by omega), if_neg (by simp [h0])]
      have hshift : skip + (k + 1) = (skip + 1) + k := by omega
      have hrec := ih fuel (skip + 1) (by omega) (by rw [← hshift]; exact hmatch)
        (fun j hj => by
          have hj2 : (skip + 1) + j = skip + (j + 1) := by omega
          rw [hj2]; exact hpre (j + 1) (by omega))
      rw [hrec, hshift]

theorem load_census_aux_nomatch_long (lines : List (List String)) :
    ∀ (fuel skip : ℕ), skip + fuel ≤ lines.length →
      (∀ j, j < fuel → headerFound lines (skip + j) = false) →
      load_census_aux lines skip fuel = .missingHeaderError fuel := by
  intro fuel
  induction fuel with
  | zero => intro skip _ _; rfl
  | succ fuel ih =>
    intro skip hlen hpre
    have h0 : headerFound lines skip = false := by simpa using hpre 0 (Nat.succ_pos fuel)
    rw [load_census_aux_step lines skip fuel (by omega), if_neg (by simp [h0])]
    have hrec := ih (skip + 1) (by omega) (fun j hj => by
      have hj2 : (skip + 1) + j = skip + (j + 1) := by omega
      rw [hj2]; exact hpre (j + 1) (by omega))
    rw [hrec]

theorem load_census_aux_nomatch_short (lines : List (List String)) :
    ∀ (fuel skip : ℕ), skip ≤ lines.length → lines.length < skip + fuel →
      (∀ j, j < fuel → headerFound lines (skip + j) = false) →
      load_census_aux lines skip fuel = .emptyDataError (lines.length - skip + 1) := by
  intro fuel
  induction fuel with
  | zero =>
    intro skip hle hlt _
    exact absurd hlt (by omega)
  | succ fuel ih =>
    intro skip hle hlt hpre
    rcases Nat.lt_or_ge skip lines.length with hlt2 | hge
    · have h0 : headerFound lines skip = false := by
        simpa using hpre 0 (Nat.succ_pos fuel)
      rw [load_census_aux_step lines skip fuel hlt2, if_neg (by simp [h0])]
      have hrec := ih (skip + 1) (by omega) (by omega) (fun j hj => by
        have hj2 : (skip + 1) + j = skip + (j + 1) := by omega
        rw [hj2]; exact hpre (j + 1) (by omega))
      rw [hrec]
      show LoadResult.emptyDataError (lines.length - (skip + 1) + 1 + 1) = _
      have harith : lines.length - (skip + 1) + 1 + 1 = lines.length - skip + 1 := by omega
      rw [harith]
    · rw [load_census_aux_eof lines skip fuel hge]
      have harith : lines.length - skip + 1 = 1 := by omega
      rw [harith]

/-- Claim C2: when the real header sits at offset `k` (both normalized
required columns present there), the `k` preamble lines before it all fail
the column test, and the lookahead bound exceeds `k`, the loader returns
the table parsed with exactly `k` skipped lines — column names trimmed and
lowercased, data rows being everything after the header line — whose
columns include both `us_total_households` and `year`, after exactly
`k + 1` parse attempts (offsets `0` through `k`). -/
theorem load_census_header_location (lines : List (List String)) (k lookahead : ℕ)
    (hk : k < lookahead)
    (hmatch : headerFound lines k = true)
    (hpre : ∀ j, j < k → headerFound lines j = false) :
    load_census_csv lines lookahead = .table (k + 1) (normDF lines k) ∧
    (normDF lines k).cols = normalizeCols ((lines.drop k).headD []) ∧
    (normDF lines k).rows = (lines.drop k).tail ∧
    "us_total_households" ∈ (normDF lines k).cols ∧
    "year" ∈ (normDF lines k).cols := by
  have hload := load_census_aux_found lines k lookahead 0 hk (by simpa using hmatch)
    (fun j hj => by simpa using hpre j hj)
  refine ⟨by simpa [load_census_csv] using hload, rfl, rfl, ?_, ?_⟩ <;>
  · have := hmatch
    simp only [headerFound, dfHeaderOk, Bool.and_eq_true, List.contains,
      List.elem_eq_mem, decide_eq_true_eq] at this
    simp [normDF, normAssign]
    tauto

/-- Witness for C2 at `censusLines0`: the header is found at offset 2 after
exactly 3 attempts, with normalized columns. -/
theorem load_census_header_location_witness :
    (2 : ℕ) < 15 ∧ headerFound censusLines0 2 = true ∧
    load_census_csv censusLines0 15 =
      .table 3 { cols := ["year", "us_total_households"], rows := [["1990", "128,451"]] } := by
  have h := load_census_header_location censusLines0 2 15 (by decide) (by decide)
    (fun j hj => by interval_cases j <;> decide)
  exact ⟨by decide, by decide, h.1.trans (by decide)⟩

/-- Claim C3, amended: when no skip offset below the lookahead bound
exposes both required normalized columns, the loader never returns a
table; if the file has at least `lookahead` lines it raises the
descriptive missing-header `ValueError` after attempting every one of
the `lookahead` offsets, while a shorter file aborts earlier with pandas'
uncaught `EmptyDataError` on the first offset at or past the file's line
count, after `length + 1` read attempts. -/
theorem load_census_failure (lines : List (List String)) (lookahead : ℕ)
    (h : ∀ j, j < lookahead → headerFound lines j = false) :
    (lookahead ≤ lines.length →
      load_census_csv lines lookahead = .missingHeaderError lookahead) ∧
    (lines.length < lookahead →
      load_census_csv lines lookahead = .emptyDataError (lines.length + 1)) := by
  constructor
  · intro hlen
    exact load_census_aux_nomatch_long lines lookahead 0 (by omega)
      (fun j hj => by simpa using h j hj)
  · intro hlen
    have hshort := load_census_aux_nomatch_short lines lookahead 0 (by omega) (by omega)
      (fun j hj => by simpa using h j hj)
    simpa using hshort

/-- Witness for C3: on the 15-line headerless `censusLinesNoHeader` every
offset below the bound is attempted and the descriptive error is raised;
on the 3-line `censusLinesBad` the run aborts with `EmptyDataError` at
the fourth read. -/
theorem load_census_failure_witness :
    (∀ j, j < 15 → headerFound censusLinesNoHeader j = false) ∧
    load_census_csv censusLinesNoHeader 15 = .missingHeaderError 15 ∧
    load_census_csv censusLinesBad 15 = .emptyDataError 4 := by
  have h1 : ∀ j, j < 15 → headerFound censusLinesNoHeader j = false := by
    intro j hj; interval_cases j <;> decide
  have h2 : ∀ j, j < 15 → headerFound censusLinesBad j = false := by
    intro j hj; interval_cases j <;> decide
  refine ⟨h1, (load_census_failure censusLinesNoHeader 15 h1).1 (by decide), ?_⟩
  exact ((load_census_failure censusLinesBad 15 h2).2 (by decide)).trans (by decide)

/-- Counterexample to C3 as stated: `censusLinesBad` has only 3 lines and
no offset below the bound exposes the required columns, yet with
lookahead 15 the loader does not raise the descriptive missing-header
error after trying every offset — the fourth `pd.read_csv` already dies
with `EmptyDataError`, so only 4 of the 15 offsets are ever attempted
and the descriptive error is never reached. -/
theorem load_census_failure_counterexample :
    (∀ j, j < 15 → headerFound censusLinesBad j = false) ∧
    load_census_csv censusLinesBad 15 = .emptyDataError 4 ∧
    (∀ n, load_census_csv censusLinesBad 15 ≠ .missingHeaderError n) ∧
    (∀ n df, load_census_csv censusLinesBad 15 ≠ .table n df) := by
  have h : load_census_csv censusLinesBad 15 = .emptyDataError 4 := by decide
  refine ⟨fun j hj => by interval_cases j <;> decide, h, ?_, ?_⟩
  · intro n
    rw [h]
    simp
  · intro n df
    rw [h]
    simp

/-- Claim C5: a household-count field whose comma-stripped form parses as
the integer `n` cleans to `n * 1000` (source unit is thousands of
households). -/
theorem household_unit_conversion (s : String) (n : ℤ)
    (h : parseInt (stripCommas s) = some n) :
    clean_household_field s = some (n * 1000) := by
  simp [clean_household_field, h]

/-- Witness for C5: `"128,451"` cleans to `128451000`. -/
theorem household_unit_conversion_witness :
    parseInt (stripCommas "128,451") = some 128451 ∧
    clean_household_field "128,451" = some 128451000 := by
  have h : parseInt (stripCommas "128,451") = some 128451 := by decide
  exact ⟨h, (household_unit_conversion "128,451" 128451 h).trans (by decide)⟩

theorem parseFed_mem {rs : List FedRecord} {prs : List FedRow}
    (h : parseFed rs = some prs) (pr : FedRow) :
    pr ∈ prs ↔ ∃ r ∈ rs, parseFedRecord r = some pr := by
  induction rs generalizing prs with
  | nil =>
    simp only [parseFed, Option.some.injEq] at h
    subst h
    simp
  | cons r rs ih =>
    simp only [parseFed] at h
    cases hr : parseFedRecord r with
    | none => rw [hr] at h; cases h
    | some pr0 =>
      rw [hr] at h
      cases hrs : parseFed rs with
      | none => rw [hrs] at h; cases h
      | some prs0 =>
        rw [hrs] at h
        obtain rfl : pr0 :: prs0 = prs := by simpa using h
        simp only [List.mem_cons, ih hrs, List.mem_cons]
        constructor
        · rintro (rfl | ⟨r1, hr1, hp1⟩)
          · exact ⟨r, Or.inl rfl, hr⟩
          · exact ⟨r1, Or.inr hr1, hp1⟩
        · rintro ⟨r1, (rfl | hr1), hp1⟩
          · left; rw [hr] at hp1; exact (Option.some.injEq _ _).mp hp1.symm
          · right; exact ⟨r1, hr1, hp1⟩

theorem cellValues_scale (rs : List FedRow) (y : ℤ) (c : String) :
    cellValues (scaleAssets rs) y c = (cellValues rs y c).map (fun v => v * 1000000) := by
  induction rs with
  | nil => rfl
  | cons r rs ih =>
    simp only [scaleAssets, List.map_cons, cellValues, List.filter_cons] at ih ⊢
    by_cases h : (r.year == y && r.category == c) = true
    · simpa [h] using ih
    · simpa [h] using ih

theorem sum_map_mulconst (vs : List ℚ) (c : ℚ) :
    (vs.map (fun v => v * c)).sum = vs.sum * c := by
  induction vs with
  | nil => simp
  | cons v vs ih => simp [ih, add_mul]

/-- Claim C4: the annual wealth table has a `(y, c)` cell exactly when some
asset record has date-derived year `y` (leading four characters of the
date, converted to integer) inside `[1990, 2023]` and tier label `c`; and
every cell is the mean of the ×1,000,000-scaled asset values over however
many quarter rows the group has, with no minimum-quarter-count
requirement. -/
theorem annual_average_table (rs : List FedRecord) (prs : List FedRow)
    (hp : parseFed rs = some prs) (y : ℤ) (c : String) :
    ((annualCell prs y c).isSome ↔
      (1990 ≤ y ∧ y ≤ 2023 ∧
        ∃ r ∈ rs, parseInt (take4 r.date) = some y ∧ r.category = c)) ∧
    ∀ v, annualCell prs y c = some v →
      (cellValues (filterYears prs) y c) ≠ [] ∧
      v = 1000000 * ((cellValues (filterYears prs) y c).sum /
            ((cellValues (filterYears prs) y c).length : ℚ)) := by
  have hcell : cellValues (scaleAssets (filterYears prs)) y c
      = (cellValues (filterYears prs) y c).map (fun v => v * 1000000) :=
    cellValues_scale (filterYears prs) y c
  constructor
  · rw [annualCell, hcell]
    unfold meanList
    rcases heq : cellValues (filterYears prs) y c with _ | ⟨v0, vs⟩
    · simp only [heq, List.map_nil, List.isEmpty_nil, if_true, Option.isSome_none,
        Bool.false_eq_true, false_iff]
      rintro ⟨hy1, hy2, r, hr, hpr, hcat⟩
      have hmem : ({ year := y, category := c, assets := r.assets } : FedRow) ∈ prs := by
        rw [parseFed_mem hp]
        refine ⟨r, hr, ?_⟩
        simp [parseFedRecord, hpr, hcat]
      have : r.assets ∈ cellValues (filterYears prs) y c := by
        unfold cellValues
        refine List.mem_map.mpr ⟨{ year := y, category := c, assets := r.assets }, ?_, rfl⟩
        refine List.mem_filter.mpr ⟨List.mem_filter.mpr ⟨hmem, ?_⟩, by simp⟩
        simp [inRange, hy1, hy2]
      rw [heq] at this
      simp at this
    · simp only [heq, List.map_cons, List.isEmpty_cons, if_false, Option.isSome_some,
        Bool.false_eq_true, true_iff]
      have : v0 ∈ cellValues (filterYears prs) y c := by rw [heq]; exact List.mem_cons_self v0 vs
      unfold cellValues at this
      obtain ⟨pr, hprmem, rfl⟩ := List.mem_map.mp this
      have hfil := List.mem_filter.mp hprmem
      have hfil2 := List.mem_filter.mp hfil.1
      have hy : pr.year = y ∧ pr.category = c := by
        have := hfil.2
        simpa using this
      have hrange : inRange pr.year = true := by
        have := hfil2.2
        simpa [filterYears] using this
      rw [hy.1] at hrange
      simp only [inRange, Bool.and_eq_true, decide_eq_true_eq] at hrange
      refine ⟨hrange.1, hrange.2, ?_⟩
      obtain ⟨r, hr, hpr⟩ := (parseFed_mem hp pr).mp hfil2.1
      cases hparse : parseInt (take4 r.date) with
      | none => rw [parseFedRecord, hparse] at hpr; cases hpr
      | some y1 =>
        rw [parseFedRecord, hparse] at hpr
        have hpr' : ({ year := y1, category := r.category, assets := r.assets } : FedRow) = pr := by
          simpa using hpr
        refine ⟨r, hr, ?_, ?_⟩
        · rw [hparse]
          have h1 : y1 = y := by rw [← hy.1, ← hpr']
          rw [h1]
        · rw [← hy.2, ← hpr']
  · intro v hv
    rw [annualCell, hcell] at hv
    unfold meanList at hv
    rcases heq : cellValues (filterYears prs) y c with _ | ⟨v0, vs⟩
    · rw [heq] at hv; simp at hv
    · rw [heq] at hv
      simp only [List.map_cons, List.isEmpty_cons, if_false] at hv
      refine ⟨by simp, ?_⟩
      have hv' := (Option.some.injEq _ _).mp hv
      rw [← hv']
      show (List.map (fun v => v * 1000000) (v0 :: vs)).sum /
          ((List.map (fun v => v * 1000000) (v0 :: vs)).length : ℚ) = _
      rw [sum_map_mulconst, List.length_map]
      rw [mul_comm ((v0 :: vs).sum) 1000000, mul_div_assoc]

/-- Witness for C4: the 1990 `TopPt1` cell exists and equals the mean of
the two scaled in-range quarters, `(2e6 + 4e6) / 2 = 3e6`. -/
theorem annual_average_table_witness :
    parseFed fedRecords0 = some fedRows0 ∧
    (annualCell fedRows0 1990 "TopPt1").isSome = true ∧
    annualCell fedRows0 1990 "TopPt1" = some 3000000 := by
  have hp : parseFed fedRecords0 = some fedRows0 := by decide
  have h := annual_average_table fedRecords0 fedRows0 hp 1990 "TopPt1"
  refine ⟨hp, h.1.mpr ⟨by norm_num, by norm_num, ?_⟩, ?_⟩
  · exact ⟨{ date := "1990:Q1", category := "TopPt1", assets := 2 },
      by simp [fedRecords0], by decide, rfl⟩
  · simp only [annualCell, cellValues, scaleAssets, filterYears, inRange, meanList, fedRows0]
    norm_num

/-- Claim C1: in a merged row whose year has a present household count
`h`, each of the five per-household columns equals the tier's annual asset
total divided by `h` times the tier's fixed population share
(0.001, 0.009, 0.09, 0.40, 0.50 respectively). -/
theorem per_household_derivation (rs : List FedRow) (census : List CensusRow)
    (y : ℤ) (h : ℤ) (hhh : lookupCensus census y = some h) :
    (∀ a, annualCell rs y "TopPt1" = some a →
      (mkMergedRow rs census y).top_pt1_per_household = some (a / ((h : ℚ) * 0.001))) ∧
    (∀ a, annualCell rs y "RemainingTop1" = some a →
      (mkMergedRow rs census y).remaining_top_1_per_household = some (a / ((h : ℚ) * 0.009))) ∧
    (∀ a, annualCell rs y "Next9" = some a →
      (mkMergedRow rs census y).next9_per_household = some (a / ((h : ℚ) * 0.09))) ∧
    (∀ a, annualCell rs y "Next40" = some a →
      (mkMergedRow rs census y).next40_per_household = some (a / ((h : ℚ) * 0.40))) ∧
    (∀ a, annualCell rs y "Bottom50" = some a →
      (mkMergedRow rs census y).bottom50_per_household = some (a / ((h : ℚ) * 0.50))) := by
  refine ⟨?_, ?_, ?_, ?_, ?_⟩ <;>
    · intro a ha
      simp [mkMergedRow, perHH, ha, hhh]

/-- Witness for C1: with tier total 100,000 (millions) and 130,000,000
households, `next9_per_household` is `100000 / (130000000 * 0.09)`, which
is within `0.00001` of the quoted `0.00854`. -/
theorem per_household_derivation_witness :
    lookupCensus censusRowsW 2000 = some 130000000 ∧
    annualCell fedRowsW 2000 "Next9" = some 100000 ∧
    (mkMergedRow fedRowsW censusRowsW 2000).next9_per_household =
      some ((100000 : ℚ) / (130000000 * 0.09)) ∧
    |(100000 : ℚ) / (130000000 * 0.09) - 0.00854| < 0.00001 := by
  have hl : lookupCensus censusRowsW 2000 = some 130000000 := by decide
  have hc : annualCell fedRowsW 2000 "Next9" = some 100000 := by
    simp only [annualCell, cellValues, scaleAssets, filterYears, inRange, meanList, fedRowsW]
    norm_num
  have h := per_household_derivation fedRowsW censusRowsW 2000 130000000 hl
  have h9 := h.2.2.1 100000 hc
  refine ⟨hl, hc, ?_, ?_⟩
  · rw [h9]
    norm_num
  · rw [abs_sub_lt_iff]
    constructor <;> norm_num

theorem checkColumn_eq_none (t : VTable) (c : String) :
    checkColumn t c = none ↔
      (c ∈ t.cols ∧ colHasNull t c = false ∧ colHasNeg t c = false) := by
  unfold checkColumn
  split_ifs with h1 h2 h3 <;>
    simp_all [List.contains, List.elem_eq_mem, decide_eq_true_eq]

theorem validateAux_eq_none (t : VTable) (cs : List String) :
    validateAux t cs = none ↔ ∀ c ∈ cs, checkColumn t c = none := by
  induction cs with
  | nil => simp [validateAux]
  | cons c cs ih =>
    simp only [validateAux, List.mem_cons]
    cases h : checkColumn t c with
    | some e =>
      simp only [reduceCtorEq, false_iff, not_forall]
      exact ⟨c, Or.inl rfl, by rw [h]; simp⟩
    | none =>
      rw [ih]
      constructor
      · rintro hall c1 (rfl | hc1)
        · exact h
        · exact hall c1 hc1
      · intro hall c1 hc1
        exact hall c1 (Or.inr hc1)

theorem validateAux_eq_some (t : VTable) (cs : List String) (e : VerError)
    (h : validateAux t cs = some e) : ∃ c ∈ cs, checkColumn t c = some e := by
  induction cs with
  | nil => cases h
  | cons c cs ih =>
    simp only [validateAux] at h
    cases hc : checkColumn t c with
    | some e1 =>
      rw [hc] at h
      exact ⟨c, List.mem_cons_self c cs, hc.trans h⟩
    | none =>
      rw [hc] at h
      obtain ⟨c1, hc1, he⟩ := ih h
      exact ⟨c1, List.mem_cons_of_mem c hc1, he⟩

theorem checkColumn_eq_some (t : VTable) (c : String) (e : VerError)
    (h : checkColumn t c = some e) :
    (e = .missingColumn c ∧ c ∉ t.cols) ∨
    (e = .nullValues c ∧ colHasNull t c = true) ∨
    (e = .negativeValues c ∧ colHasNeg t c = true) := by
  unfold checkColumn at h
  split_ifs at h with h1 h2 h3 <;>
    simp_all [List.contains, List.elem_eq_mem, decide_eq_true_eq]

/-- Claim C6, amended: the validator fails exactly when one of the six
expected columns (year plus the five per-household figures) is absent, or
one of those six columns — not only the five per-household ones — contains
a null or a negative value; on failure the error names an offending
expected column together with its violation kind, and a fully conforming
table passes.  The validator never modifies the table. -/
theorem validate_dataset_gate (t : VTable) :
    (validate_dataset t ≠ none ↔
      ∃ c ∈ expected_columns,
        c ∉ t.cols ∨ colHasNull t c = true ∨ colHasNeg t c = true) ∧
    (∀ e, validate_dataset t = some e →
      ∃ c ∈ expected_columns,
        (e = .missingColumn c ∧ c ∉ t.cols) ∨
        (e = .nullValues c ∧ colHasNull t c = true) ∨
        (e = .negativeValues c ∧ colHasNeg t c = true)) ∧
    (validate_dataset t = none ↔
      ∀ c ∈ expected_columns,
        c ∈ t.cols ∧ colHasNull t c = false ∧ colHasNeg t c = false) := by
  have hnone : validate_dataset t = none ↔
      ∀ c ∈ expected_columns,
        c ∈ t.cols ∧ colHasNull t c = false ∧ colHasNeg t c = false := by
    rw [validate_dataset, validateAux_eq_none]
    constructor
    · intro hall c hc
      exact (checkColumn_eq_none t c).mp (hall c hc)
    · intro hall c hc
      exact (checkColumn_eq_none t c).mpr (hall c hc)
  refine ⟨?_, ?_, hnone⟩
  · constructor
    · intro hne
      by_contra hex
      push_neg at hex
      apply hne
      rw [hnone]
      intro c hc
      have := hex c hc
      refine ⟨?_, ?_, ?_⟩
      · by_contra hmem
        exact absurd this.1 (by simp [hmem])
      · cases h : colHasNull t c with
        | false => rfl
        | true => exact absurd this.2.1 (by simp [h])
      · cases h : colHasNeg t c with
        | false => rfl
        | true => exact absurd this.2.2 (by simp [h])
    · intro ⟨c, hc, hbad⟩ hcontra
      rw [hnone] at hcontra
      have := hcontra c hc
      rcases hbad with hb | hb | hb
      · exact hb this.1
      · rw [this.2.1] at hb; cases hb
      · rw [this.2.2] at hb; cases hb
  · intro e he
    obtain ⟨c, hc, hcheck⟩ := validateAux_eq_some t expected_columns e he
    exact ⟨c, hc, checkColumn_eq_some t c e hcheck⟩

/-- Counterexample to C6 as stated: a table whose six expected columns are
all present and whose five per-household columns have no nulls and no
negatives is rejected anyway (the year column is also checked, and here
it is negative), so "fails iff a violation occurs in the five
per-household columns" is false on the code. -/
theorem validate_dataset_gate_counterexample :
    validate_dataset vtableYearNeg = some (.negativeValues "year") ∧
    (∀ c ∈ expected_columns, c ∈ vtableYearNeg.cols) ∧
    (∀ c ∈ expected_columns.tail,
      colHasNull vtableYearNeg c = false ∧ colHasNeg vtableYearNeg c = false) := by
  refine ⟨by decide, by decide, by decide⟩

/-- Claim C10: the validator looks only at the six expected columns — any
table in which those six are present, fully populated and non-negative
passes, whatever other columns (household counts, raw tier assets, …)
contain. -/
theorem validator_ignores_other_columns (t : VTable)
    (h : ∀ c ∈ expected_columns,
      c ∈ t.cols ∧ colHasNull t c = false ∧ colHasNeg t c = false) :
    validate_dataset t = none := by
  rw [validate_dataset, validateAux_eq_none]
  intro c hc
  exact (checkColumn_eq_none t c).mpr (h c hc)

/-- Witness for C10: `vtableExtraBad` passes validation even though its
non-expected columns contain a negative value and a null. -/
theorem validator_ignores_other_columns_witness :
    (∀ c ∈ expected_columns,
      c ∈ vtableExtraBad.cols ∧ colHasNull vtableExtraBad c = false ∧
        colHasNeg vtableExtraBad c = false) ∧
    colHasNeg vtableExtraBad "us_total_households" = true ∧
    colHasNull vtableExtraBad "top_pt1_assets" = true ∧
    validate_dataset vtableExtraBad = none := by
  refine ⟨by decide, by decide, by decide,
    validator_ignores_other_columns vtableExtraBad (by decide)⟩

/-- Claim C9: on every pair of input files the two copies of the first
pipeline agree step for step — their pre-rounding merged tables are
identical, and each copy's final merged table and saved artifact is
exactly the common table under its own rounding precision (two decimal
places in the production script, one in the data-validation copy), with
the same six output columns in the same order. -/
theorem duplicated_pipeline_equivalence (censusLines : List (List String))
    (fed : List FedRecord) :
    buildMergedDV censusLines fed = buildMerged censusLines fed ∧
    pipeline014 censusLines fed =
      Option.map (List.map (roundMergedRow 2)) (buildMergedDV censusLines fed) ∧
    pipelineDV censusLines fed =
      Option.map (List.map (roundMergedRow 1)) (buildMerged censusLines fed) ∧
    artifact014 censusLines fed =
      Option.map (List.map (fun r => projOut (roundMergedRow 2 r)))
        (buildMergedDV censusLines fed) ∧
    artifactDV censusLines fed =
      Option.map (List.map (fun r => projOut (roundMergedRow 1 r)))
        (buildMerged censusLines fed) := by
  have h1 : buildMergedDV censusLines fed = buildMerged censusLines fed := by
    unfold buildMergedDV buildMerged
    rfl
  refine ⟨h1, ?_, ?_, ?_, ?_⟩
  · rw [pipeline014, h1]
  · rw [pipelineDV, h1]
  · rw [artifact014, pipeline014, h1, Option.map_map]
    congr 1
    funext l
    simp [Function.comp, List.map_map]
  · rw [artifactDV, pipelineDV, h1, Option.map_map]
    congr 1
    funext l
    simp [Function.comp, List.map_map]

/-- Claim C7: when the artifact has a 1990 row `s` and a 2023 row `e`
(with nonzero 1990 values, so each quotient is defined), the calculator
returns the table keyed by tier, one row per tier, whose entries are
`(end − start) / start * 100` rounded to one decimal place. -/
theorem pct_change_formula (rows : List PHRow) (s e : PHRow)
    (hs : rows.find? (fun r => r.year == 1990) = some s)
    (he : rows.find? (fun r => r.year == 2023) = some e)
    (h1 : s.top_pt1_per_household ≠ 0)
    (h2 : s.remaining_top_1_per_household ≠ 0)
    (h3 : s.next9_per_household ≠ 0)
    (h4 : s.next40_per_household ≠ 0)
    (h5 : s.bottom50_per_household ≠ 0) :
    pct_change rows = some
      [("top_pt1_per_household", .fin (roundDp 1
          ((e.top_pt1_per_household - s.top_pt1_per_household) /
            s.top_pt1_per_household * 100))),
       ("remaining_top_1_per_household", .fin (roundDp 1
          ((e.remaining_top_1_per_household - s.remaining_top_1_per_household) /
            s.remaining_top_1_per_household * 100))),
       ("next9_per_household", .fin (roundDp 1
          ((e.next9_per_household - s.next9_per_household) /
            s.next9_per_household * 100))),
       ("next40_per_household", .fin (roundDp 1
          ((e.next40_per_household - s.next40_per_household) /
            s.next40_per_household * 100))),
       ("bottom50_per_household", .fin (roundDp 1
          ((e.bottom50_per_household - s.bottom50_per_household) /
            s.bottom50_per_household * 100)))] ∧
    (pctTable s e).map Prod.fst = tierColumns ∧
    (pctTable s e).length = 5 := by
  unfold pct_change
  rw [hs, he]
  refine ⟨?_, rfl, rfl⟩
  show some (pctTable s e) = _
  unfold pctTable pctCell
  rw [if_neg h1, if_neg h2, if_neg h3, if_neg h4, if_neg h5]

/-- Witness for C7: a tier going from 50.0 in 1990 to 200.0 in 2023 gets
`pct_change` 300.0 (the other tiers, 50 → 100, get 100.0). -/
theorem pct_change_formula_witness :
    phRows7.find? (fun r => r.year == 1990) = some phStart7 ∧
    pct_change phRows7 = some
      [("top_pt1_per_household", .fin 300), ("remaining_top_1_per_household", .fin 100),
       ("next9_per_household", .fin 100), ("next40_per_household", .fin 100),
       ("bottom50_per_household", .fin 100)] := by
  have h := pct_change_formula phRows7 phStart7 phEnd7 (by decide) (by decide)
    (by decide) (by decide) (by decide) (by decide) (by decide)
  refine ⟨by decide, h.1.trans ?_⟩
  norm_num [phStart7, phEnd7, roundDp, round_eq]

/-- Claim C8, amended: the calculator aborts exactly when the artifact
lacks a 1990 row or a 2023 row; a zero 1990 value does not abort it — the
affected tier's cell is a non-finite float and the table is still
produced. -/
theorem pct_change_failure (rows : List PHRow) :
    pct_change rows = none ↔
      rows.find? (fun r => r.year == 1990) = none ∨
      rows.find? (fun r => r.year == 2023) = none := by
  unfold pct_change
  cases h1 : rows.find? (fun r => r.year == 1990) <;>
    cases h2 : rows.find? (fun r => r.year == 2023) <;> simp

/-- Counterexample to C8 as stated: with a 1990 `top_pt1_per_household`
of exactly zero the calculator does not fail — it returns the full table,
with `+inf` (not an error) in the zero-baseline tier. -/
theorem pct_change_zero_divisor_counterexample :
    (phRows8.find? (fun r => r.year == 1990)).map
      (fun r => r.top_pt1_per_household) = some 0 ∧
    pct_change phRows8 = some
      [("top_pt1_per_household", .posInf), ("remaining_top_1_per_household", .fin 100),
       ("next9_per_household", .fin 100), ("next40_per_household", .fin 100),
       ("bottom50_per_household", .fin 100)] ∧
    pct_change phRows8 ≠ none := by
  have hfind90 : phRows8.find? (fun r => r.year == 1990) = some phStart8 := by decide
  have hfind23 : phRows8.find? (fun r => r.year == 2023) = some phEnd8 := by decide
  have htab : pct_change phRows8 = some (pctTable phStart8 phEnd8) := by
    unfold pct_change
    rw [hfind90, hfind23]
  refine ⟨by decide, ?_, ?_⟩
  · rw [htab]
    norm_num [pctTable, pctCell, phStart8, phEnd8, roundDp, round_eq]
  · rw [htab]
    simp

end TB
